import Mathlib

/-!
Verification of the token-wrap instruction layer of this repository.

The definitions below are a shallow embedding of
`src/token-wrap/program/src/instruction.rs`: the `TokenWrapInstruction`
enum with its `repr(u8)` discriminants and the three instruction
builders `create_mint`, `wrap` and `unwrap`, together with the
`solana_program` types they use (`Pubkey`, `AccountMeta`, `Instruction`).
Pubkeys are modelled by their identity only (a natural number); bytes are
naturals understood modulo 256.

The wrap/unwrap processor, the instruction codec (`pack`/`unpack`) and
the token ledger are not part of the sources; where a claim depends on
them they are modelled from the spec, and each such definition says so
in its doc comment.
-/

/-- Model of `solana_program::pubkey::Pubkey`: only identity matters here,
so a pubkey is represented by a natural number tag. -/
structure Pubkey where
  key : Nat
deriving DecidableEq, Repr

/-- Model of the fixed program id constant `spl_token::id()`. -/
def spl_token_id : Pubkey := ⟨1⟩

/-- Model of the fixed program id constant `spl_token_2022::id()`;
distinct from `spl_token_id` as the two real constants are distinct. -/
def spl_token_2022_id : Pubkey := ⟨2⟩

/-- Model of `solana_program::instruction::AccountMeta`. -/
structure AccountMeta where
  pubkey : Pubkey
  is_signer : Bool
  is_writable : Bool
deriving DecidableEq, Repr

/-- Embedding of `AccountMeta::new(pubkey, is_signer)`: writable meta. -/
def AccountMeta.new (pubkey : Pubkey) (s : Bool) : AccountMeta :=
  ⟨pubkey, s, true⟩

/-- Embedding of `AccountMeta::new_readonly(pubkey, is_signer)`. -/
def AccountMeta.new_readonly (pubkey : Pubkey) (s : Bool) : AccountMeta :=
  ⟨pubkey, s, false⟩

/-- Model of `solana_program::instruction::Instruction`: program id,
account metas, and raw data bytes. -/
structure Instruction where
  program_id : Pubkey
  accounts : List AccountMeta
  data : List Nat
deriving DecidableEq, Repr

/-- Embedding of `u64::to_le_bytes`: the eight little-endian bytes of a
64-bit value (byte i is `n / 256^i % 256`). -/
def u64ToLeBytes (n : Nat) : List Nat :=
  (List.range 8).map (fun i => n / 256 ^ i % 256)

/-- Embedding of `create_mint` from
`src/token-wrap/program/src/instruction.rs` lines 94-117, exactly as
written there: five fixed account metas, a sixth (`spl_token_2022::id()`)
pushed only when `idempotent` is true, and data `vec![idempotent as u8]`. -/
def create_mint (program_id funding_account wrapped_mint wrapped_backpointer
    unwrapped_mint : Pubkey) (idempotent : Bool) : Instruction :=
  let accounts : List AccountMeta :=
    [AccountMeta.new funding_account true,
     AccountMeta.new wrapped_mint false,
     AccountMeta.new wrapped_backpointer false,
     AccountMeta.new_readonly unwrapped_mint false,
     AccountMeta.new_readonly spl_token_id false]
  let accounts :=
    if idempotent then
      accounts ++ [AccountMeta.new_readonly spl_token_2022_id false]
    else accounts
  { program_id := program_id,
    accounts := accounts,
    data := [if idempotent then 1 else 0] }

/-- Embedding of `wrap` from
`src/token-wrap/program/src/instruction.rs` lines 119-146: six fixed
account metas, then each multisig signer appended as a read-only signer
meta, data `amount.to_le_bytes().to_vec()`. -/
def wrap (program_id unwrapped_token unwrapped_mint wrapped_mint
    wrapped_token : Pubkey) (amount : Nat)
    (multisig_signers : Option (List Pubkey)) : Instruction :=
  let accounts : List AccountMeta :=
    [AccountMeta.new unwrapped_token false,
     AccountMeta.new wrapped_token false,
     AccountMeta.new_readonly unwrapped_mint false,
     AccountMeta.new_readonly wrapped_mint false,
     AccountMeta.new_readonly spl_token_id false,
     AccountMeta.new_readonly spl_token_2022_id false]
  let accounts :=
    match multisig_signers with
    | some signers =>
        accounts ++ signers.map (fun signer => AccountMeta.new_readonly signer true)
    | none => accounts
  { program_id := program_id,
    accounts := accounts,
    data := u64ToLeBytes amount }

/-- Embedding of `unwrap` from
`src/token-wrap/program/src/instruction.rs` lines 148-175: six fixed
account metas, then each multisig signer appended as a read-only signer
meta, data `amount.to_le_bytes().to_vec()`. -/
def unwrap (program_id wrapped_token wrapped_mint unwrapped_token
    unwrapped_mint : Pubkey) (amount : Nat)
    (multisig_signers : Option (List Pubkey)) : Instruction :=
  let accounts : List AccountMeta :=
    [AccountMeta.new wrapped_token false,
     AccountMeta.new unwrapped_token false,
     AccountMeta.new_readonly wrapped_mint false,
     AccountMeta.new_readonly unwrapped_mint false,
     AccountMeta.new_readonly spl_token_id false,
     AccountMeta.new_readonly spl_token_2022_id false]
  let accounts :=
    match multisig_signers with
    | some signers =>
        accounts ++ signers.map (fun signer => AccountMeta.new_readonly signer true)
    | none => accounts
  { program_id := program_id,
    accounts := accounts,
    data := u64ToLeBytes amount }

/-- Embedding of the `TokenWrapInstruction` enum (`repr(u8)`, variants in
declaration order CreateMint, Wrap, Unwrap). -/
inductive TokenWrapInstruction
  | CreateMint
  | Wrap
  | Unwrap
deriving DecidableEq, Repr

/-- Embedding of the derived `IntoPrimitive` conversion: the `repr(u8)`
discriminant of each variant, in declaration order. -/
def TokenWrapInstruction.toByte : TokenWrapInstruction → Nat
  | .CreateMint => 0
  | .Wrap => 1
  | .Unwrap => 2

/-- Embedding of the derived `TryFromPrimitive` conversion: a byte maps
back to the variant with that discriminant, and any other byte fails. -/
def TokenWrapInstruction.tryFromByte (b : Nat) : Option TokenWrapInstruction :=
  if b = 0 then some .CreateMint
  else if b = 1 then some .Wrap
  else if b = 2 then some .Unwrap
  else none

/-- Model of `solana_program::program_error::ProgramError`, restricted to
the variant the codec uses. -/
inductive ProgramError
  | InvalidInstructionData
deriving DecidableEq, Repr

/-- Decoded operation requests of the three instructions, carrying their
payloads (`idempotent` for CreateMint, `amount` for Wrap/Unwrap). -/
inductive TokenWrapRequest
  | createMintReq (idempotent : Bool)
  | wrapReq (amount : Nat)
  | unwrapReq (amount : Nat)
deriving DecidableEq, Repr

/-- Little-endian byte-list to number: inverse reading of `to_le_bytes`. -/
def u64FromLeBytes : List Nat → Nat
  | [] => 0
  | b :: rest => b + 256 * u64FromLeBytes rest

/-- Modelled from the spec: the instruction encoder (`pack`) is not under
src; per the spec's wire table it emits a one-byte discriminant at offset
0 (0 CreateMint, 1 Wrap, 2 Unwrap) followed by the payload: one bool byte
for CreateMint, eight little-endian u64 bytes for Wrap/Unwrap. -/
def TokenWrapRequest.pack : TokenWrapRequest → List Nat
  | .createMintReq idempotent => [0, if idempotent then 1 else 0]
  | .wrapReq amount => 1 :: u64ToLeBytes amount
  | .unwrapReq amount => 2 :: u64ToLeBytes amount

/-- Modelled from the spec: the instruction decoder (`unpack`) is not
under src; per the spec it reads the discriminant byte then the payload,
and fails with `InvalidInstructionData` on wrong length or an
out-of-range discriminant. -/
def TokenWrapRequest.unpack (data : List Nat) : Except ProgramError TokenWrapRequest :=
  match data with
  | [] => .error .InvalidInstructionData
  | d :: rest =>
    if d = 0 then
      match rest with
      | [0] => .ok (.createMintReq false)
      | [1] => .ok (.createMintReq true)
      | _ => .error .InvalidInstructionData
    else if d = 1 then
      if rest.length = 8 then .ok (.wrapReq (u64FromLeBytes rest))
      else .error .InvalidInstructionData
    else if d = 2 then
      if rest.length = 8 then .ok (.unwrapReq (u64FromLeBytes rest))
      else .error .InvalidInstructionData
    else .error .InvalidInstructionData

/-- A request whose payload fits the wire format: amounts are u64. -/
def TokenWrapRequest.wf : TokenWrapRequest → Prop
  | .createMintReq _ => True
  | .wrapReq amount => amount < 2 ^ 64
  | .unwrapReq amount => amount < 2 ^ 64

/-- Model of the token ledger error surfaced on Wrap/Unwrap shortfalls. -/
inductive TokenError
  | InsufficientFunds
deriving DecidableEq, Repr

/-- Modelled from the spec: the observable balances of one wrapped pair —
the requester's unwrapped and wrapped token balances, the escrow holding,
and the wrapped mint's total supply. A freshly created pair has zero
escrow and zero supply. -/
structure PairState where
  userUnwrapped : Nat
  userWrapped : Nat
  escrow : Nat
  supply : Nat
deriving DecidableEq, Repr

/-- Modelled from the spec: the Wrap handler (not under src) transfers
`amount` unwrapped tokens from the source into escrow, then mints
`amount` wrapped tokens to the destination; the ledger transfer fails
with InsufficientFunds when the source balance is short. -/
def wrapStep (s : PairState) (amount : Nat) : Except TokenError PairState :=
  if amount ≤ s.userUnwrapped then
    .ok { userUnwrapped := s.userUnwrapped - amount,
          userWrapped := s.userWrapped + amount,
          escrow := s.escrow + amount,
          supply := s.supply + amount }
  else .error .InsufficientFunds

/-- Modelled from the spec: the Unwrap handler (not under src) burns
`amount` wrapped tokens from the source, then releases `amount`
unwrapped tokens from escrow; either ledger step fails with
InsufficientFunds when the debited balance is short. -/
def unwrapStep (s : PairState) (amount : Nat) : Except TokenError PairState :=
  if amount ≤ s.userWrapped then
    if amount ≤ s.escrow then
      .ok { userUnwrapped := s.userUnwrapped + amount,
            userWrapped := s.userWrapped - amount,
            escrow := s.escrow - amount,
            supply := s.supply - amount }
    else .error .InsufficientFunds
  else .error .InsufficientFunds

/-- Modelled from the spec: each request is an atomic transaction, so a
failed Wrap leaves every balance unchanged. -/
def runWrapTx (s : PairState) (amount : Nat) : PairState :=
  match wrapStep s amount with
  | .ok s2 => s2
  | .error _ => s

/-- Modelled from the spec: each request is an atomic transaction, so a
failed Unwrap leaves every balance unchanged. -/
def runUnwrapTx (s : PairState) (amount : Nat) : PairState :=
  match unwrapStep s amount with
  | .ok s2 => s2
  | .error _ => s

/-- One wrap-or-unwrap operation of a sequence applied to a pair. -/
inductive Op
  | opWrap (amount : Nat)
  | opUnwrap (amount : Nat)
deriving DecidableEq, Repr

/-- Apply one operation through the matching handler. -/
def applyOp (s : PairState) : Op → Except TokenError PairState
  | .opWrap amount => wrapStep s amount
  | .opUnwrap amount => unwrapStep s amount

/-- Run a sequence of operations, stopping at the first failure; a
successful run means every operation in the sequence succeeded. -/
def runOps (s : PairState) : List Op → Except TokenError PairState
  | [] => .ok s
  | op :: rest =>
    match applyOp s op with
    | .ok s2 => runOps s2 rest
    | .error e => .error e

lemma range8_eq : List.range 8 = [0, 1, 2, 3, 4, 5, 6, 7] := by decide

lemma u64ToLeBytes_length (a : Nat) : (u64ToLeBytes a).length = 8 := by
  simp [u64ToLeBytes]

lemma u64FromLeBytes_toLeBytes (a : Nat) (h : a < 2 ^ 64) :
    u64FromLeBytes (u64ToLeBytes a) = a := by
  norm_num [u64ToLeBytes, range8_eq, u64FromLeBytes] at h ⊢
  omega

lemma u64ToLeBytes_fromLeBytes (b0 b1 b2 b3 b4 b5 b6 b7 : Nat)
    (h0 : b0 < 256) (h1 : b1 < 256) (h2 : b2 < 256) (h3 : b3 < 256)
    (h4 : b4 < 256) (h5 : b5 < 256) (h6 : b6 < 256) (h7 : b7 < 256) :
    u64ToLeBytes (u64FromLeBytes [b0, b1, b2, b3, b4, b5, b6, b7]) =
      [b0, b1, b2, b3, b4, b5, b6, b7] := by
  norm_num [u64ToLeBytes, range8_eq, u64FromLeBytes]
  omega

lemma exists_eight_of_length (l : List Nat) (h : l.length = 8) :
    ∃ b0 b1 b2 b3 b4 b5 b6 b7, l = [b0, b1, b2, b3, b4, b5, b6, b7] := by
  rcases l with _ | ⟨b0, l⟩
  · simp at h
  rcases l with _ | ⟨b1, l⟩
  · simp at h
  rcases l with _ | ⟨b2, l⟩
  · simp at h
  rcases l with _ | ⟨b3, l⟩
  · simp at h
  rcases l with _ | ⟨b4, l⟩
  · simp at h
  rcases l with _ | ⟨b5, l⟩
  · simp at h
  rcases l with _ | ⟨b6, l⟩
  · simp at h
  rcases l with _ | ⟨b7, l⟩
  · simp at h
  have hl : l = [] := by
    simp only [List.length_cons] at h
    exact List.length_eq_zero.mp (by omega)
  subst hl
  exact ⟨b0, b1, b2, b3, b4, b5, b6, b7, rfl⟩

/-- C1: the instruction data the builders actually produce carries no
discriminant byte: `create_mint` emits the single bool byte (1 byte, not
2), and `wrap`/`unwrap` emit just the eight little-endian amount bytes
(8 bytes, not 9) — at amount 7 the first byte of the wrap data is 7, not
the discriminant 1, and the two data vectors coincide. -/
theorem tw_data_lacks_discriminant_bug :
    (create_mint ⟨0⟩ ⟨3⟩ ⟨4⟩ ⟨5⟩ ⟨6⟩ false).data = [0] ∧
    (create_mint ⟨0⟩ ⟨3⟩ ⟨4⟩ ⟨5⟩ ⟨6⟩ true).data = [1] ∧
    (wrap ⟨0⟩ ⟨3⟩ ⟨4⟩ ⟨5⟩ ⟨6⟩ 7 none).data = [7, 0, 0, 0, 0, 0, 0, 0] ∧
    (unwrap ⟨0⟩ ⟨3⟩ ⟨4⟩ ⟨5⟩ ⟨6⟩ 7 none).data = [7, 0, 0, 0, 0, 0, 0, 0] ∧
    ((create_mint ⟨0⟩ ⟨3⟩ ⟨4⟩ ⟨5⟩ ⟨6⟩ false).data).length ≠ 2 ∧
    ((wrap ⟨0⟩ ⟨3⟩ ⟨4⟩ ⟨5⟩ ⟨6⟩ 7 none).data).length ≠ 9 := by
  decide

/-- C3: the account list of `create_mint` is not independent of the
`idempotent` flag and does not match the documented six accounts — with
the flag false it has five metas (the System program is absent), and with
the flag true a sixth meta (the token-2022 program id) is appended, so
the two lists differ. -/
theorem tw_create_mint_accounts_bug :
    ((create_mint ⟨0⟩ ⟨3⟩ ⟨4⟩ ⟨5⟩ ⟨6⟩ false).accounts).length = 5 ∧
    ((create_mint ⟨0⟩ ⟨3⟩ ⟨4⟩ ⟨5⟩ ⟨6⟩ true).accounts).length = 6 ∧
    (create_mint ⟨0⟩ ⟨3⟩ ⟨4⟩ ⟨5⟩ ⟨6⟩ false).accounts ≠
      (create_mint ⟨0⟩ ⟨3⟩ ⟨4⟩ ⟨5⟩ ⟨6⟩ true).accounts ∧
    (create_mint ⟨0⟩ ⟨3⟩ ⟨4⟩ ⟨5⟩ ⟨6⟩ false).accounts =
      [⟨⟨3⟩, true, true⟩, ⟨⟨4⟩, false, true⟩, ⟨⟨5⟩, false, true⟩,
       ⟨⟨6⟩, false, false⟩, ⟨spl_token_id, false, false⟩] := by
  decide

/-- C4: the account lists built by `wrap` and `unwrap` contain neither an
escrow account, nor an escrow authority, nor a transfer-authority signer:
with one multisig signer the full list is the six non-signer metas (the
two token accounts, the two mints, and the two token program ids) followed
directly by the multisig signer, so no signer account precedes the
multisig tail. -/
theorem tw_wrap_unwrap_accounts_bug :
    (wrap ⟨0⟩ ⟨3⟩ ⟨4⟩ ⟨5⟩ ⟨6⟩ 7 (some [⟨9⟩])).accounts =
      [⟨⟨3⟩, false, true⟩, ⟨⟨6⟩, false, true⟩, ⟨⟨4⟩, false, false⟩,
       ⟨⟨5⟩, false, false⟩, ⟨spl_token_id, false, false⟩,
       ⟨spl_token_2022_id, false, false⟩, ⟨⟨9⟩, true, false⟩] ∧
    (unwrap ⟨0⟩ ⟨3⟩ ⟨4⟩ ⟨5⟩ ⟨6⟩ 7 (some [⟨9⟩])).accounts =
      [⟨⟨3⟩, false, true⟩, ⟨⟨5⟩, false, true⟩, ⟨⟨4⟩, false, false⟩,
       ⟨⟨6⟩, false, false⟩, ⟨spl_token_id, false, false⟩,
       ⟨spl_token_2022_id, false, false⟩, ⟨⟨9⟩, true, false⟩] ∧
    ((wrap ⟨0⟩ ⟨3⟩ ⟨4⟩ ⟨5⟩ ⟨6⟩ 7 none).accounts).all
      (fun m => !m.is_signer) = true ∧
    ((unwrap ⟨0⟩ ⟨3⟩ ⟨4⟩ ⟨5⟩ ⟨6⟩ 7 none).accounts).all
      (fun m => !m.is_signer) = true := by
  decide

/-- C2: conservation — starting from any pair state in which the escrow
balance equals the wrapped total supply (in particular the freshly
created pair with both zero), every successful sequence of Wrap and
Unwrap operations preserves `escrow = supply`, hence the equality holds
after every operation of the sequence. -/
theorem tw_conservation :
    ∀ (ops : List Op) (s0 s : PairState), s0.escrow = s0.supply →
      runOps s0 ops = .ok s → s.escrow = s.supply := by
  intro ops
  induction ops with
  | nil =>
    intro s0 s h hrun
    simp only [runOps, Except.ok.injEq] at hrun
    exact hrun ▸ h
  | cons op rest ih =>
    intro s0 s h hrun
    simp only [runOps] at hrun
    cases hop : applyOp s0 op with
    | error e => rw [hop] at hrun; exact absurd hrun (by simp)
    | ok s1 =>
      rw [hop] at hrun
      refine ih s1 s ?_ hrun
      cases op with
      | opWrap amount =>
        simp only [applyOp, wrapStep] at hop
        split at hop
        · cases hop; simp; omega
        · exact absurd hop (by simp)
      | opUnwrap amount =>
        simp only [applyOp, unwrapStep] at hop
        split at hop
        · split at hop
          · cases hop; simp; omega
          · exact absurd hop (by simp)
        · exact absurd hop (by simp)

/-- Witness for C2 at a concrete run: wrap 3 then unwrap 2 from a fresh
pair with user balance 5 ends in a state with escrow equal to supply. -/
theorem tw_conservation_witness :
    (⟨4, 1, 1, 1⟩ : PairState).escrow = (⟨4, 1, 1, 1⟩ : PairState).supply :=
  tw_conservation [Op.opWrap 3, Op.opUnwrap 2] ⟨5, 0, 0, 0⟩ ⟨4, 1, 1, 1⟩
    (by decide) (by rfl)

/-- C5: the variant-to-byte conversion yields 0 for CreateMint, 1 for
Wrap, 2 for Unwrap; the byte-to-variant conversion succeeds exactly on
bytes 0, 1, 2 and inverts it; and decoding fails with
InvalidInstructionData on every out-of-range discriminant (any byte at
least 3), on empty data, and on payloads of the wrong length. -/
theorem tw_discriminant_conversions :
    (TokenWrapInstruction.toByte .CreateMint = 0 ∧
     TokenWrapInstruction.toByte .Wrap = 1 ∧
     TokenWrapInstruction.toByte .Unwrap = 2) ∧
    (∀ b : Nat, (TokenWrapInstruction.tryFromByte b).isSome ↔ b ≤ 2) ∧
    (∀ v : TokenWrapInstruction,
      TokenWrapInstruction.tryFromByte (TokenWrapInstruction.toByte v) = some v) ∧
    (∀ (b : Nat) (rest : List Nat), 3 ≤ b →
      TokenWrapRequest.unpack (b :: rest) = .error .InvalidInstructionData) ∧
    (TokenWrapRequest.unpack [] = .error .InvalidInstructionData) ∧
    (∀ rest : List Nat, rest.length ≠ 1 →
      TokenWrapRequest.unpack (0 :: rest) = .error .InvalidInstructionData) ∧
    (∀ rest : List Nat, rest.length ≠ 8 →
      TokenWrapRequest.unpack (1 :: rest) = .error .InvalidInstructionData ∧
      TokenWrapRequest.unpack (2 :: rest) = .error .InvalidInstructionData) := by
  refine ⟨⟨rfl, rfl, rfl⟩, ?_, ?_, ?_, rfl, ?_, ?_⟩
  · intro b
    simp only [TokenWrapInstruction.tryFromByte]
    split_ifs <;> simp <;> omega
  · intro v
    cases v <;> rfl
  · intro b rest hb
    simp only [TokenWrapRequest.unpack]
    have h0 : ¬ b = 0 := by omega
    have h1 : ¬ b = 1 := by omega
    have h2 : ¬ b = 2 := by omega
    simp [h0, h1, h2]
  · intro rest h
    have h0 : ¬ rest = [0] := by rintro rfl; simp at h
    have h1 : ¬ rest = [1] := by rintro rfl; simp at h
    simp [TokenWrapRequest.unpack, h0, h1]
  · intro rest h
    constructor <;> simp [TokenWrapRequest.unpack, h]

/-- Witness for C5 at concrete inputs: byte 3 is rejected by the variant
conversion context and a 9-byte payload with discriminant 3 is rejected
by the decoder. -/
theorem tw_discriminant_conversions_witness :
    TokenWrapRequest.unpack [3, 0, 0, 0, 0, 0, 0, 0, 0] =
      .error .InvalidInstructionData :=
  tw_discriminant_conversions.2.2.2.1 3 [0, 0, 0, 0, 0, 0, 0, 0] (by norm_num)

/-- C6: the data of every wrap and unwrap instruction is exactly the
eight little-endian bytes of the amount (recovering the amount for any
u64 value), is identical for every choice of multisig signer list, and
the signers contribute only trailing read-only signer account metas. -/
theorem tw_amount_payload_signers :
    ∀ (pid a b c d : Pubkey) (amount : Nat)
      (sig1 sig2 : Option (List Pubkey)) (signers : List Pubkey),
      (wrap pid a b c d amount sig1).data = u64ToLeBytes amount ∧
      (unwrap pid a b c d amount sig1).data = u64ToLeBytes amount ∧
      (wrap pid a b c d amount sig1).data = (wrap pid a b c d amount sig2).data ∧
      (unwrap pid a b c d amount sig1).data = (unwrap pid a b c d amount sig2).data ∧
      (amount < 2 ^ 64 →
        u64FromLeBytes (wrap pid a b c d amount sig1).data = amount) ∧
      (wrap pid a b c d amount (some signers)).accounts =
        (wrap pid a b c d amount none).accounts ++
          signers.map (fun s => AccountMeta.new_readonly s true) ∧
      (unwrap pid a b c d amount (some signers)).accounts =
        (unwrap pid a b c d amount none).accounts ++
          signers.map (fun s => AccountMeta.new_readonly s true) := by
  intro pid a b c d amount sig1 sig2 signers
  exact ⟨rfl, rfl, rfl, rfl,
    fun h => u64FromLeBytes_toLeBytes amount h, rfl, rfl⟩

/-- Witness for C6 at a concrete input: the wrap data for amount 7
decodes back to 7. -/
theorem tw_amount_payload_signers_witness :
    u64FromLeBytes (wrap ⟨0⟩ ⟨3⟩ ⟨4⟩ ⟨5⟩ ⟨6⟩ 7 none).data = 7 :=
  (tw_amount_payload_signers ⟨0⟩ ⟨3⟩ ⟨4⟩ ⟨5⟩ ⟨6⟩ 7 none none
    []).2.2.2.2.1 (by norm_num)

lemma unpack_cons_zero (rest : List Nat) :
    TokenWrapRequest.unpack (0 :: rest) =
      match rest with
      | [0] => .ok (.createMintReq false)
      | [1] => .ok (.createMintReq true)
      | _ => .error .InvalidInstructionData := by
  simp [TokenWrapRequest.unpack]

lemma unpack_cons_one (rest : List Nat) :
    TokenWrapRequest.unpack (1 :: rest) =
      if rest.length = 8 then .ok (.wrapReq (u64FromLeBytes rest))
      else .error .InvalidInstructionData := by
  simp [TokenWrapRequest.unpack]

lemma unpack_cons_two (rest : List Nat) :
    TokenWrapRequest.unpack (2 :: rest) =
      if rest.length = 8 then .ok (.unwrapReq (u64FromLeBytes rest))
      else .error .InvalidInstructionData := by
  simp [TokenWrapRequest.unpack]

lemma unpack_ok_pack (data : List Nat) (r : TokenWrapRequest)
    (hb : ∀ b ∈ data, b < 256) (h : TokenWrapRequest.unpack data = .ok r) :
    TokenWrapRequest.pack r = data := by
  rcases data with _ | ⟨d, rest⟩
  · simp [TokenWrapRequest.unpack] at h
  by_cases hd0 : d = 0
  · subst hd0
    rw [unpack_cons_zero] at h
    split at h
    · injection h with h; subst h; rfl
    · injection h with h; subst h; rfl
    · simp at h
  by_cases hd1 : d = 1
  · subst hd1
    rw [unpack_cons_one] at h
    split_ifs at h with hlen
    · injection h with h
      subst h
      obtain ⟨b0, b1, b2, b3, b4, b5, b6, b7, rfl⟩ :=
        exists_eight_of_length rest hlen
      simp only [TokenWrapRequest.pack]
      rw [u64ToLeBytes_fromLeBytes b0 b1 b2 b3 b4 b5 b6 b7
        (hb b0 (by simp)) (hb b1 (by simp)) (hb b2 (by simp))
        (hb b3 (by simp)) (hb b4 (by simp)) (hb b5 (by simp))
        (hb b6 (by simp)) (hb b7 (by simp))]
  by_cases hd2 : d = 2
  · subst hd2
    rw [unpack_cons_two] at h
    split_ifs at h with hlen
    · injection h with h
      subst h
      obtain ⟨b0, b1, b2, b3, b4, b5, b6, b7, rfl⟩ :=
        exists_eight_of_length rest hlen
      simp only [TokenWrapRequest.pack]
      rw [u64ToLeBytes_fromLeBytes b0 b1 b2 b3 b4 b5 b6 b7
        (hb b0 (by simp)) (hb b1 (by simp)) (hb b2 (by simp))
        (hb b3 (by simp)) (hb b4 (by simp)) (hb b5 (by simp))
        (hb b6 (by simp)) (hb b7 (by simp))]
  simp [TokenWrapRequest.unpack, hd0, hd1, hd2] at h

/-- C7: the codec round-trips — decoding the encoding of any operation
request with a u64-sized payload yields the request back, and encoding
the decoding of any byte string the decoder accepts reproduces the same
bytes. -/
theorem tw_pack_unpack_round_trip :
    (∀ r : TokenWrapRequest, TokenWrapRequest.wf r →
      TokenWrapRequest.unpack (TokenWrapRequest.pack r) = .ok r) ∧
    (∀ (data : List Nat) (r : TokenWrapRequest), (∀ b ∈ data, b < 256) →
      TokenWrapRequest.unpack data = .ok r → TokenWrapRequest.pack r = data) := by
  constructor
  · intro r hr
    cases r with
    | createMintReq i => cases i <;> rfl
    | wrapReq a =>
      simp only [TokenWrapRequest.wf] at hr
      simp only [TokenWrapRequest.pack, TokenWrapRequest.unpack]
      norm_num [u64ToLeBytes_length, u64FromLeBytes_toLeBytes a hr]
    | unwrapReq a =>
      simp only [TokenWrapRequest.wf] at hr
      simp only [TokenWrapRequest.pack, TokenWrapRequest.unpack]
      norm_num [u64ToLeBytes_length, u64FromLeBytes_toLeBytes a hr]
  · intro data r hb h
    exact unpack_ok_pack data r hb h

/-- Witness for C7 at concrete inputs: wrapping amount 5 round-trips
through the codec, and re-encoding the decoding of the unwrap bytes for
amount 1 reproduces them. -/
theorem tw_pack_unpack_round_trip_witness :
    TokenWrapRequest.unpack (TokenWrapRequest.pack (.wrapReq 5)) =
      .ok (.wrapReq 5) ∧
    TokenWrapRequest.pack (.unwrapReq 1) = [2, 1, 0, 0, 0, 0, 0, 0, 0] :=
  ⟨tw_pack_unpack_round_trip.1 (.wrapReq 5) (by norm_num [TokenWrapRequest.wf]),
   tw_pack_unpack_round_trip.2 [2, 1, 0, 0, 0, 0, 0, 0, 0] (.unwrapReq 1)
     (by decide) (by rfl)⟩

/-- C8: a Wrap whose amount exceeds the source unwrapped balance, or an
Unwrap whose amount exceeds the source wrapped balance, fails with the
ledger's InsufficientFunds error, and the aborted transaction leaves the
pair state (all balances) unchanged. -/
theorem tw_insufficient_funds :
    ∀ (s : PairState) (amount : Nat),
      (s.userUnwrapped < amount →
        wrapStep s amount = .error .InsufficientFunds ∧
        runWrapTx s amount = s) ∧
      (s.userWrapped < amount →
        unwrapStep s amount = .error .InsufficientFunds ∧
        runUnwrapTx s amount = s) := by
  intro s amount
  constructor
  · intro h
    have hn : ¬ amount ≤ s.userUnwrapped := by omega
    constructor <;> simp [wrapStep, runWrapTx, hn]
  · intro h
    have hn : ¬ amount ≤ s.userWrapped := by omega
    constructor <;> simp [unwrapStep, runUnwrapTx, hn]

/-- Witness for C8 at the spec's scenario: source balance 1,000,000 and
request 1,000,001 fail with InsufficientFunds and the balance (indeed
the whole state) is unchanged. -/
theorem tw_insufficient_funds_witness :
    wrapStep ⟨1000000, 0, 0, 0⟩ 1000001 = .error .InsufficientFunds ∧
    runWrapTx ⟨1000000, 0, 0, 0⟩ 1000001 = ⟨1000000, 0, 0, 0⟩ :=
  (tw_insufficient_funds ⟨1000000, 0, 0, 0⟩ 1000001).1 (by decide)

/-- C9: with a multisig signer list `some signers` of length M, the wrap
and unwrap builders return exactly 6 + M account metas whose positions
6..6+M hold the signers in input order, each read-only with the signer
flag set; with `none` the result has exactly 6 metas with no signer flag
set, and `some []` yields the same metas as `none`. -/
theorem tw_signer_tail :
    ∀ (pid a b c d : Pubkey) (amount : Nat) (signers : List Pubkey),
      ((wrap pid a b c d amount (some signers)).accounts).length =
        6 + signers.length ∧
      ((wrap pid a b c d amount (some signers)).accounts).drop 6 =
        signers.map (fun s => AccountMeta.new_readonly s true) ∧
      ((wrap pid a b c d amount none).accounts).length = 6 ∧
      ((wrap pid a b c d amount none).accounts).all
        (fun m => !m.is_signer) = true ∧
      (wrap pid a b c d amount (some [])).accounts =
        (wrap pid a b c d amount none).accounts ∧
      ((unwrap pid a b c d amount (some signers)).accounts).length =
        6 + signers.length ∧
      ((unwrap pid a b c d amount (some signers)).accounts).drop 6 =
        signers.map (fun s => AccountMeta.new_readonly s true) ∧
      ((unwrap pid a b c d amount none).accounts).length = 6 ∧
      ((unwrap pid a b c d amount none).accounts).all
        (fun m => !m.is_signer) = true ∧
      (unwrap pid a b c d amount (some [])).accounts =
        (unwrap pid a b c d amount none).accounts := by
  intro pid a b c d amount signers
  refine ⟨?_, rfl, rfl, rfl, rfl, ?_, rfl, rfl, rfl, rfl⟩ <;>
    simp [wrap, unwrap] <;> omega

/-- C10: the three builders are deterministic — equal arguments give
structurally equal instructions — and the returned instruction's
program id field always equals the program id argument. -/
theorem tw_builders_deterministic :
    ∀ (pid f wm wb um : Pubkey) (idem : Bool) (ut uw wt : Pubkey)
      (amount : Nat) (sig : Option (List Pubkey)),
      (create_mint pid f wm wb um idem).program_id = pid ∧
      (wrap pid ut uw wm wt amount sig).program_id = pid ∧
      (unwrap pid wt wm ut uw amount sig).program_id = pid ∧
      (∀ pid2 f2 wm2 wb2 um2 idem2,
        pid = pid2 → f = f2 → wm = wm2 → wb = wb2 → um = um2 → idem = idem2 →
        create_mint pid f wm wb um idem =
          create_mint pid2 f2 wm2 wb2 um2 idem2) ∧
      (∀ pid2 ut2 uw2 wm2 wt2 amount2 sig2,
        pid = pid2 → ut = ut2 → uw = uw2 → wm = wm2 → wt = wt2 →
        amount = amount2 → sig = sig2 →
        wrap pid ut uw wm wt amount sig =
          wrap pid2 ut2 uw2 wm2 wt2 amount2 sig2) ∧
      (∀ pid2 wt2 wm2 ut2 uw2 amount2 sig2,
        pid = pid2 → wt = wt2 → wm = wm2 → ut = ut2 → uw = uw2 →
        amount = amount2 → sig = sig2 →
        unwrap pid wt wm ut uw amount sig =
          unwrap pid2 wt2 wm2 ut2 uw2 amount2 sig2) := by
  intro pid f wm wb um idem ut uw wt amount sig
  refine ⟨rfl, rfl, rfl, ?_, ?_, ?_⟩ <;> (intros; subst_vars; rfl)

/-- Witness for C10 at concrete arguments: two create_mint calls with
equal arguments return the same instruction. -/
theorem tw_builders_deterministic_witness :
    create_mint ⟨0⟩ ⟨3⟩ ⟨4⟩ ⟨5⟩ ⟨6⟩ true =
      create_mint ⟨0⟩ ⟨3⟩ ⟨4⟩ ⟨5⟩ ⟨6⟩ true :=
  (tw_builders_deterministic ⟨0⟩ ⟨3⟩ ⟨4⟩ ⟨5⟩ ⟨6⟩ true ⟨7⟩ ⟨8⟩ ⟨9⟩ 1
    none).2.2.2.1 ⟨0⟩ ⟨3⟩ ⟨4⟩ ⟨5⟩ ⟨6⟩ true rfl rfl rfl rfl rfl rfl
